import Mathlib

/-!
Shallow embedding of the `med` terminal text editor (Rust sources
`src/document.rs`, `src/editor.rs`, `src/terminal.rs`, `src/main.rs`).

Modelling conventions:
- Rust `String` text is modelled as `List Char` (`Text`); one character is one
  column, as the spec stipulates.
- `usize` arithmetic is `Nat`; `saturating_sub` is truncated `Nat` subtraction
  and `saturating_add` is ordinary `Nat` addition.
- Methods on `&mut self` become functions `State → State`; a method on `&self`
  that can fail is embedded in state-passing style returning its result
  together with the (unchanged) state.
- The filesystem is a parameter: for `open`, a map from paths to the list of
  text lines of the file (`none` when the path cannot be opened or read); for
  `save`, a flag saying whether the create/write operations succeed, and the
  outcome records the exact byte content the code writes.
- A Rust panic (`expect`) is a distinct terminal outcome `aborted`, carrying
  the panic message: it aborts the process and is not an `Err` value.
-/

abbrev Text := List Char

def txt (s : String) : Text := s.data

/-- Modelled from the spec: `main.rs` declares `mod row;` but `row.rs` is not
among the sources; the Row (Line) component is modelled from spec section 4.1,
which defines a Line as an owned mutable character sequence. -/
structure Row where
  content : Text
deriving DecidableEq

/-- Modelled from the spec: a Line is created empty (`Row::default()` in the
callers in `document.rs`). -/
def Row.default : Row := ⟨[]⟩

/-- Modelled from the spec: `from(text)` builds a Line from a plain string. -/
def Row.fromText (t : Text) : Row := ⟨t⟩

/-- Modelled from the spec: `length()` returns the character count. -/
def Row.len (r : Row) : Nat := r.content.length

/-- Modelled from the spec: `insert(col, ch)` appends when `col ≥ length`,
otherwise inserts before the existing character at `col`; always succeeds. -/
def Row.insert (r : Row) (col : Nat) (c : Char) : Row :=
  if col ≥ r.len then ⟨r.content ++ [c]⟩
  else ⟨r.content.take col ++ c :: r.content.drop col⟩

/-- Modelled from the spec: `delete(col)` removes the character at `col` if
`col < length`; no-op otherwise. -/
def Row.delete (r : Row) (col : Nat) : Row :=
  if col < r.len then ⟨r.content.take col ++ r.content.drop (col + 1)⟩ else r

/-- Modelled from the spec: `split(col)` truncates the line to `[0, col)` in
place and returns a new Line containing `[col, length)`; the pair is
(truncated line, returned second half). -/
def Row.split (r : Row) (col : Nat) : Row × Row :=
  (⟨r.content.take col⟩, ⟨r.content.drop col⟩)

/-- Modelled from the spec: `append(other)` appends the other Line's full
content to the end of this line. -/
def Row.append (r : Row) (other : Row) : Row := ⟨r.content ++ other.content⟩

/-- Modelled from the spec: `as_text()` (`as_bytes` at the save call site)
returns the raw character sequence, used for persistence. -/
def Row.as_text (r : Row) : Text := r.content

/-- `Position` from `editor.rs` (fields in source order: `col`, then `row`). -/
structure Position where
  col : Nat
  row : Nat
deriving DecidableEq

def Position.default : Position := { col := 0, row := 0 }

/-- `Document` from `document.rs`: rows, optional backing path, dirty flag. -/
structure Document where
  rows : List Row
  path : Option Text
  dirty : Bool
deriving DecidableEq

/-- `Document::default()` (derived `Default`): empty rows, no path, clean. -/
def Document.default : Document := { rows := [], path := none, dirty := false }

/-- `Document::row`: `self.rows.get(index)`. -/
def Document.row (d : Document) (index : Nat) : Option Row := d.rows[index]?

/-- `Document::is_empty`. -/
def Document.is_empty (d : Document) : Bool := d.rows.isEmpty

/-- `Document::len`: number of rows. -/
def Document.len (d : Document) : Nat := d.rows.length

/-- `Document::insert_newline` from `document.rs` lines 54-68: no-op when
`at.row > rows.len()`; append an empty row when `at.row == rows.len()`;
otherwise split the row at `at.col` and insert the second half at
`at.row + 1`. Sets `dirty` in the non-no-op cases. -/
def Document.insert_newline (d : Document) (pos : Position) : Document :=
  if pos.row > d.rows.length then d
  else if pos.row = d.rows.length then
    { d with rows := d.rows ++ [Row.default], dirty := true }
  else
    let pair := (d.rows.getD pos.row Row.default).split pos.col
    { d with rows := (d.rows.set pos.row pair.1).insertIdx (pos.row + 1) pair.2,
             dirty := true }

/-- `Document::insert` from `document.rs` lines 70-89: no-op when
`at.row > rows.len()`; sets `dirty`, then delegates a newline to
`insert_newline`; appends a fresh one-character row when `at.row == rows.len()`,
otherwise inserts into the existing row. -/
def Document.insert (d : Document) (pos : Position) (c : Char) : Document :=
  if pos.row > d.rows.length then d
  else if c = '\n' then ({ d with dirty := true }).insert_newline pos
  else if pos.row = d.rows.length then
    { d with rows := d.rows ++ [Row.default.insert 0 c], dirty := true }
  else
    { d with rows := d.rows.set pos.row ((d.rows.getD pos.row Row.default).insert pos.col c),
             dirty := true }

/-- `Document::delete` from `document.rs` lines 91-108: no-op when
`at.row ≥ len`; when `at.col` equals the target row's length and a next row
exists, remove the next row and append its content to the current row;
otherwise delete the character at `at.col` within the target row. -/
def Document.delete (d : Document) (pos : Position) : Document :=
  let len := d.rows.length
  if pos.row ≥ len then d
  else if pos.col = (d.rows.getD pos.row Row.default).len ∧ pos.row + 1 < len then
    let next_row := d.rows.getD (pos.row + 1) Row.default
    let rows1 := d.rows.eraseIdx (pos.row + 1)
    { d with rows := rows1.set pos.row ((rows1.getD pos.row Row.default).append next_row),
             dirty := true }
  else
    { d with rows := d.rows.set pos.row ((d.rows.getD pos.row Row.default).delete pos.col),
             dirty := true }

/-- Outcome of `Document::open`: the Rust signature is
`Result<Self, std::io::Error>`, but the body uses `expect` on both the file
open and each line read, so a failure aborts the process with the given
message instead of producing an `Err`; `aborted` models that terminal
outcome. The `Err` case of the declared `Result` is never produced. -/
inductive OpenOutcome
  | ok (d : Document)
  | aborted (msg : Text)
deriving DecidableEq

/-- `Document::open` from `document.rs` lines 14-28, over a filesystem model
`fs` mapping a path to the decoded lines of the file, or `none` when the path
cannot be opened or read. On `none` the code hits
`expect("Unable to open file")` (or the per-line read `expect`), which
aborts; on success it builds one `Row` per input line, records the path, and
starts clean. (`openDoc` because `open` is reserved in Lean.) -/
def Document.openDoc (fs : Text → Option (List Text)) (path : Text) : OpenOutcome :=
  match fs path with
  | none => .aborted (txt "Unable to open file")
  | some fileLines =>
      .ok { rows := fileLines.map Row.fromText, path := some path, dirty := false }

/-- Outcome of `Document::save`: `ok written` is the `Ok(())` return, with
`written` the full byte content written to the backing file (`none` when no
file was touched because there is no backing path); `ioError` is an `Err`
propagated by `?` from the file create or a write. -/
inductive SaveOutcome
  | ok (written : Option Text)
  | ioError
deriving DecidableEq

/-- The content `Document::save` writes on success: every row's text followed
by exactly one newline character (`write_all(row.as_bytes())` then
`write_all(b"\n")` per row). -/
def serialize (rows : List Row) : Text :=
  (rows.map (fun r => r.as_text ++ [Char.ofNat 10])).flatten

/-- `Document::save` from `document.rs` lines 30-40, in state-passing style
(the Rust method takes `&self`). `fsOk` models whether the file create and
writes succeed. With no backing path the body skips the `if let` and returns
`Ok(())` without touching the filesystem. -/
def Document.save (fsOk : Bool) (d : Document) : SaveOutcome × Document :=
  match d.path with
  | some _ => if fsOk then (.ok (some (serialize d.rows)), d) else (.ioError, d)
  | none => (.ok none, d)

/-- `Size` from `terminal.rs` (`columns`, `rows`), as `Nat`. -/
structure Size where
  columns : Nat
  rows : Nat
deriving DecidableEq

/-- `Editor` from `editor.rs`, restricted to the state the core reads and
writes: the `stdout` and `events` fields are external I/O handles and are
not part of the embedded state; `status_message` is its `text`. -/
structure Editor where
  terminal : Size
  document : Document
  cursor_position : Position
  offset : Position
  status_message : Text
  is_running : Bool
deriving DecidableEq

/-- Document selection in `Editor::default` (`editor.rs` lines 53-60): with a
path argument, `Document::open(path).unwrap_or_default()`; otherwise
`Document::default()`. Since `Document::open` aborts instead of returning
`Err`, an abort propagates and `unwrap_or_default` never supplies the
default. -/
def editorStartupDocument (fs : Text → Option (List Text)) (arg : Option Text) :
    OpenOutcome :=
  match arg with
  | some path =>
      match Document.openDoc fs path with
      | .ok d => .ok d
      | .aborted msg => .aborted msg
  | none => .ok Document.default

/-- `Editor::scroll` from `editor.rs` lines 180-197: pull each offset
coordinate back to the cursor when the cursor is before it, push it forward
to `cursor − extent + 1` when the cursor is at or past `offset + extent`,
leave it otherwise. -/
def Editor.scroll (e : Editor) : Editor :=
  let col := e.cursor_position.col
  let row := e.cursor_position.row
  let width := e.terminal.columns
  let height := e.terminal.rows
  let offRow :=
    if row < e.offset.row then row
    else if row ≥ e.offset.row + height then row - height + 1
    else e.offset.row
  let offCol :=
    if col < e.offset.col then col
    else if col ≥ e.offset.col + width then col - width + 1
    else e.offset.col
  { e with offset := { col := offCol, row := offRow } }

/-- The row-length lookup `move_cursor` performs:
`if let Some(row) = self.document.row(r) { row.len() } else { 0 }`. -/
def Document.rowLen (d : Document) (r : Nat) : Nat :=
  match d.row r with
  | some rw => rw.len
  | none => 0

/-- The movement keys `Editor::move_cursor` is called with (the crossterm
`KeyCode` variants the dispatcher routes to it; its catch-all arm is inert). -/
inductive KeyCode
  | Up
  | Down
  | Left
  | Right
  | PageUp
  | PageDown
  | Home
  | End
deriving DecidableEq

/-- `Editor::move_cursor` from `editor.rs` lines 199-265: move `(col, row)`
per the key, then re-clamp the column with `col = min(col, width)` against
the length of the row now under the cursor. -/
def Editor.move_cursor (key : KeyCode) (e : Editor) : Editor :=
  let terminal_rows := e.terminal.rows
  let col := e.cursor_position.col
  let row := e.cursor_position.row
  let height := e.document.len
  let width := e.document.rowLen row
  let moved : Nat × Nat :=
    match key with
    | .Up => (col, row - 1)
    | .Down => if row < height then (col, row + 1) else (col, row)
    | .Left =>
        if col > 0 then (col - 1, row)
        else if row > 0 then (e.document.rowLen (row - 1), row - 1)
        else (col, row)
    | .Right =>
        if col < width then (col + 1, row)
        else if row < height then (0, row + 1)
        else (col, row)
    | .PageUp => (col, if row > terminal_rows then row - terminal_rows else 0)
    | .PageDown =>
        (col, if row + terminal_rows < height then row + terminal_rows else height)
    | .Home => (0, row)
    | .End => (width, row)
  let width2 := e.document.rowLen moved.2
  { e with cursor_position := { col := min moved.1 width2, row := moved.2 } }

/-- Decimal rendering of a `usize`, as `format!` produces it. -/
def natText (n : Nat) : Text := Nat.toDigits 10 n

/-- The line indicator `format!("{},{}", cursor.row + 1, document.len())`. -/
def lineIndicator (cursorRow docLen : Nat) : Text :=
  natText (cursorRow + 1) ++ txt "," ++ natText docLen

/-- `Editor::render_status_bar` from `editor.rs` lines 87-106: pad the status
text with spaces when the width exceeds the combined length, append the line
indicator, and truncate to the terminal width. -/
def Editor.render_status_bar (e : Editor) : Text :=
  let width := e.terminal.columns
  let li := lineIndicator e.cursor_position.row e.document.len
  let len := e.status_message.length + li.length
  let status :=
    if width > len then e.status_message ++ List.replicate (width - len) ' '
    else e.status_message
  (status ++ li).take width

/-! Concrete states used by counterexamples and witnesses. -/

def editorZeroViewport : Editor :=
  { terminal := { columns := 0, rows := 0 }, document := Document.default,
    cursor_position := Position.default, offset := Position.default,
    status_message := [], is_running := true }

def editorSmall : Editor :=
  { terminal := { columns := 80, rows := 24 }, document := Document.default,
    cursor_position := { col := 3, row := 100 }, offset := Position.default,
    status_message := [], is_running := true }

def docHello : Document :=
  { rows := [Row.fromText (txt "hello")], path := none, dirty := false }

def docAB : Document :=
  { rows := [Row.fromText (txt "ab"), Row.fromText (txt "cd")], path := none,
    dirty := false }

def docXY : Document :=
  { rows := [Row.fromText (txt "x"), Row.fromText (txt "y")],
    path := some (txt "f"), dirty := true }

def editorOneRow : Editor :=
  { terminal := { columns := 80, rows := 24 }, document := docHello,
    cursor_position := { col := 0, row := 0 }, offset := Position.default,
    status_message := [], is_running := true }

/-- Claim C1: the claim says an unopenable path makes `Document::open` return
an I/O error and startup degrades to an empty buffer; the code instead hits
`expect("Unable to open file")`, aborting the whole process, so the
`unwrap_or_default()` in `Editor::default` never engages. -/
theorem C1_open_failure_aborts :
    Document.openDoc (fun _ => none) (txt "missing")
      = OpenOutcome.aborted (txt "Unable to open file")
    ∧ editorStartupDocument (fun _ => none) (some (txt "missing"))
      = OpenOutcome.aborted (txt "Unable to open file") :=
  ⟨rfl, rfl⟩

/-- Claim C7: `split(col)` followed by `append` of the returned second half
reconstructs the original line exactly. -/
theorem C7_split_append_inverse (r : Row) (col : Nat) :
    ((r.split col).1).append ((r.split col).2) = r := by
  cases r with
  | mk content =>
      show Row.mk (List.take col content ++ List.drop col content) = Row.mk content
      rw [List.take_append_drop]

/-- Claim C9: `scroll` modifies only the viewport offset; cursor, document,
status text, terminal size and run flag are unchanged. -/
theorem C9_scroll_frame (e : Editor) :
    (Editor.scroll e).cursor_position = e.cursor_position
    ∧ (Editor.scroll e).document = e.document
    ∧ (Editor.scroll e).status_message = e.status_message
    ∧ (Editor.scroll e).terminal = e.terminal
    ∧ (Editor.scroll e).is_running = e.is_running :=
  ⟨rfl, rfl, rfl, rfl, rfl⟩

/-- Claim C10: `save` never modifies the Document; in particular the dirty
flag is not cleared by a successful save. -/
theorem C10_save_frame (fsOk : Bool) (d : Document) :
    (Document.save fsOk d).2 = d ∧ ((Document.save fsOk d).2).dirty = d.dirty := by
  rcases d with ⟨rows, path, dirty⟩
  cases path <;> cases fsOk <;> exact ⟨rfl, rfl⟩

/-- Claim C2 (counterexample): with a zero-sized viewport the scroll
recomputation pushes the offset past the cursor, so the claimed containment
fails; the claim as stated quantifies over every viewport size. -/
theorem C2_counterexample :
    ¬ ((Editor.scroll editorZeroViewport).offset.row
        ≤ (Editor.scroll editorZeroViewport).cursor_position.row
      ∧ (Editor.scroll editorZeroViewport).cursor_position.row
        < (Editor.scroll editorZeroViewport).offset.row
          + (Editor.scroll editorZeroViewport).terminal.rows
      ∧ (Editor.scroll editorZeroViewport).offset.col
        ≤ (Editor.scroll editorZeroViewport).cursor_position.col
      ∧ (Editor.scroll editorZeroViewport).cursor_position.col
        < (Editor.scroll editorZeroViewport).offset.col
          + (Editor.scroll editorZeroViewport).terminal.columns) := by
  decide

/-- Claim C2 (amended): for viewports of width and height at least 1, after
`scroll` the offset satisfies `offset.row ≤ cursor.row < offset.row + height`
and `offset.col ≤ cursor.col < offset.col + width`. -/
theorem C2_scroll_contains_cursor (e : Editor)
    (hw : 1 ≤ e.terminal.columns) (hh : 1 ≤ e.terminal.rows) :
    (Editor.scroll e).offset.row ≤ (Editor.scroll e).cursor_position.row
    ∧ (Editor.scroll e).cursor_position.row
      < (Editor.scroll e).offset.row + (Editor.scroll e).terminal.rows
    ∧ (Editor.scroll e).offset.col ≤ (Editor.scroll e).cursor_position.col
    ∧ (Editor.scroll e).cursor_position.col
      < (Editor.scroll e).offset.col + (Editor.scroll e).terminal.columns := by
  simp only [Editor.scroll]
  split_ifs <;> refine ⟨?_, ?_, ?_, ?_⟩ <;> omega

/-- Witness for C2 at a concrete editor state. -/
theorem C2_scroll_contains_cursor_witness :
    (Editor.scroll editorSmall).offset.row ≤ (Editor.scroll editorSmall).cursor_position.row
    ∧ (Editor.scroll editorSmall).cursor_position.row
      < (Editor.scroll editorSmall).offset.row + (Editor.scroll editorSmall).terminal.rows
    ∧ (Editor.scroll editorSmall).offset.col ≤ (Editor.scroll editorSmall).cursor_position.col
    ∧ (Editor.scroll editorSmall).cursor_position.col
      < (Editor.scroll editorSmall).offset.col + (Editor.scroll editorSmall).terminal.columns :=
  C2_scroll_contains_cursor editorSmall (by decide) (by decide)

/-- Claim C3: every movement command applied to an in-bounds cursor leaves
the cursor with `row ≤ Buffer.length` and `col ≤` the length of the row now
at the cursor (0 for the virtual trailing row). -/
theorem C3_move_cursor_bounds (key : KeyCode) (e : Editor)
    (hrow : e.cursor_position.row ≤ e.document.len)
    (_hcol : e.cursor_position.col ≤ e.document.rowLen e.cursor_position.row) :
    (Editor.move_cursor key e).cursor_position.row
      ≤ (Editor.move_cursor key e).document.len
    ∧ (Editor.move_cursor key e).cursor_position.col
      ≤ (Editor.move_cursor key e).document.rowLen
          ((Editor.move_cursor key e).cursor_position.row) := by
  cases key <;>
    · simp only [Editor.move_cursor]
      refine ⟨?_, Nat.min_le_right _ _⟩
      first
      | omega
      | (split_ifs <;> (try simp only []) <;> omega)

/-- Witness for C3 at a concrete editor state and key. -/
theorem C3_move_cursor_bounds_witness :
    (Editor.move_cursor KeyCode.Down editorOneRow).cursor_position.row
      ≤ (Editor.move_cursor KeyCode.Down editorOneRow).document.len
    ∧ (Editor.move_cursor KeyCode.Down editorOneRow).cursor_position.col
      ≤ (Editor.move_cursor KeyCode.Down editorOneRow).document.rowLen
          ((Editor.move_cursor KeyCode.Down editorOneRow).cursor_position.row) :=
  C3_move_cursor_bounds KeyCode.Down editorOneRow (by decide) (by decide)

/-- Claim C5 (counterexample): `insert_newline` at a position with
`row > length` is a no-op, and `insert` of a plain character at
`row = length` also grows the Buffer by one row, so both the universal
quantification over positions and the sole-mechanism clause fail. -/
theorem C5_counterexample :
    (Document.insert_newline Document.default { col := 0, row := 1 }).len
      = Document.default.len
    ∧ Document.insert_newline Document.default { col := 0, row := 1 }
      = Document.default
    ∧ (Document.insert Document.default { col := 0, row := 0 } 'a').len
      = Document.default.len + 1 := by
  decide

/-- Claim C5 (amended): for every position with `row ≤ length()`,
`insert_newline` increases `length()` by exactly 1. -/
theorem C5_insert_newline_grows (d : Document) (pos : Position)
    (h : pos.row ≤ d.len) :
    (d.insert_newline pos).len = d.len + 1 := by
  simp only [Document.insert_newline, Document.len] at h ⊢
  split_ifs with h1 h2
  · omega
  · simp
  · rw [List.length_insertIdx _ _ (by simp only [List.length_set]; omega)]
    simp

/-- Witness for C5 at a concrete document and position. -/
theorem C5_insert_newline_grows_witness :
    (docHello.insert_newline { col := 2, row := 0 }).len = docHello.len + 1 :=
  C5_insert_newline_grows docHello { col := 2, row := 0 } (by decide)

/-- Claim C6: for `row < length()`, `delete` decreases `length()` by exactly
1 when the column equals the target row's length and a next row exists
(row-join); otherwise `length()` is unchanged. -/
theorem C6_delete_length (d : Document) (pos : Position) (h : pos.row < d.len) :
    (pos.col = (d.rows.getD pos.row Row.default).len ∧ pos.row + 1 < d.len →
      (d.delete pos).len + 1 = d.len)
    ∧ (¬(pos.col = (d.rows.getD pos.row Row.default).len ∧ pos.row + 1 < d.len) →
      (d.delete pos).len = d.len) := by
  simp only [Document.len] at h ⊢
  constructor
  · intro hc
    simp only [Document.delete]
    rw [if_neg (by omega), if_pos hc]
    simp only [Document.len, List.length_set, List.length_eraseIdx]
    rw [if_pos hc.2]
    omega
  · intro hc
    simp only [Document.delete]
    rw [if_neg (by omega), if_neg hc]
    simp only [Document.len, List.length_set]

/-- Witness for C6: the spec scenario (rows "ab","cd", delete at (0,2) joins
them into one row). -/
theorem C6_delete_length_witness :
    (docAB.delete { col := 2, row := 0 }).len + 1 = docAB.len :=
  (C6_delete_length docAB { col := 2, row := 0 } (by decide)).1 (by decide)

/-- Claim C4 (counterexample): `save` on a Document with no backing path
returns `Ok(())` without writing anything, instead of the claimed I/O
error. -/
theorem C4_counterexample :
    (Document.save true Document.default).1 = SaveOutcome.ok none
    ∧ (Document.save true Document.default).1 ≠ SaveOutcome.ioError := by
  decide

/-- Claim C4 (amended): with no backing path `save` succeeds without writing;
with a backing path it fails with an I/O error exactly when the write fails,
and otherwise writes every row's text followed by exactly one newline. -/
theorem C4_save_cases (fsOk : Bool) (d : Document) :
    (d.path = none → (Document.save fsOk d).1 = SaveOutcome.ok none)
    ∧ (d.path ≠ none → fsOk = true →
        (Document.save fsOk d).1 = SaveOutcome.ok (some (serialize d.rows)))
    ∧ (d.path ≠ none → fsOk = false →
        (Document.save fsOk d).1 = SaveOutcome.ioError) := by
  rcases d with ⟨rows, path, dirty⟩
  cases path <;> cases fsOk <;> simp [Document.save]

/-- Witness for C4 at a concrete document with a backing path. -/
theorem C4_save_cases_witness :
    (Document.save true docXY).1 = SaveOutcome.ok (some (serialize docXY.rows)) :=
  (C4_save_cases true docXY).2.1 (by decide) rfl

/-- Claim C8: the rendered status line is the status text, space padding, and
the `"{row+1},{len}"` indicator, truncated to the terminal width, and its
length always equals the terminal width exactly. -/
theorem C8_status_bar_shape (e : Editor) :
    (Editor.render_status_bar e).length = e.terminal.columns
    ∧ Editor.render_status_bar e
      = (e.status_message
          ++ List.replicate
              (e.terminal.columns
                - (e.status_message.length
                  + (lineIndicator e.cursor_position.row e.document.len).length)) ' '
          ++ lineIndicator e.cursor_position.row e.document.len).take
          e.terminal.columns := by
  simp only [Editor.render_status_bar]
  by_cases hw :
      e.terminal.columns
        > e.status_message.length
          + (lineIndicator e.cursor_position.row e.document.len).length
  · rw [if_pos hw]
    constructor
    · simp only [List.length_take, List.length_append, List.length_replicate]
      omega
    · rw [List.append_assoc]
  · rw [if_neg hw]
    constructor
    · simp only [List.length_take, List.length_append]
      omega
    · rw [Nat.sub_eq_zero_of_le (by omega), List.replicate_zero, List.append_nil]
